import Mathlib

/-!
# Verification of the QuestionAnsApp generation endpoints

A shallow embedding of the two HTTP generation endpoints of the
QuestionAnsApp repository:

* the live endpoint `src/app/api/generate/route.ts` (`POST`), and
* the demo endpoint (the unnamed demo route file, `POST`).

JavaScript strings are modelled as Lean `String` / `List Char`; the
platform primitives used by the routes (`String.prototype.includes`,
`trim`, `toLowerCase`, `startsWith`, the regexes of the topic-extraction
step, and `JSON.parse`) are modelled by the executable functions below.
The external generative-model calls are modelled as oracle inputs
(`Except GeminiError GeminiResponse`) supplied in the request
environment, since their behaviour is outside the repository.
-/

namespace QuestionAnsApp

/-! ## JavaScript string primitives -/

/-- `hay.includes(needle)` on JavaScript strings (substring test). -/
def jsIncludes : List Char → List Char → Bool
  | [], needle => needle.isEmpty
  | c :: t, needle => needle.isPrefixOf (c :: t) || jsIncludes t needle

/-- Whitespace stripped by `String.prototype.trim` (common ASCII subset). -/
def jsWhitespace (c : Char) : Bool :=
  c == ' ' || c == '\t' || c == '\n' || c == '\r' || c == '\x0b' || c == '\x0c'

/-- `s.trim()` on a character list. -/
def jsTrim (s : List Char) : List Char :=
  ((s.dropWhile jsWhitespace).reverse.dropWhile jsWhitespace).reverse

/-- `s.trim()` on strings. -/
def jsTrimS (s : String) : String := ⟨jsTrim s.data⟩

/-- `s.toLowerCase()` (ASCII case folding, enough for the keyword scans). -/
def jsToLower (s : List Char) : List Char := s.map Char.toLower

/-- `hay.startsWith(pre)` on JavaScript strings. -/
def jsStartsWith (hay pre : List Char) : Bool := pre.isPrefixOf hay

/-! ## JSON values and `JSON.parse`

The topic-extraction step of the live endpoint runs `JSON.parse` on the
cleaned model response.  `Json` models the parse result; numeric
literals keep their source lexeme (their exact numeric formatting is
irrelevant to the endpoint, which only string-coerces them). -/

inductive Json where
  | null : Json
  | bool : Bool → Json
  | num : String → Json
  | str : String → Json
  | arr : List Json → Json
  | obj : List (String × Json) → Json

mutual

/-- `String(v)` for a JSON value (JavaScript string coercion), with the
array case following `Array.prototype.toString` (elements joined by
commas, `null` elements rendered empty). -/
def jsToString : Json → String
  | Json.null => "null"
  | Json.bool true => "true"
  | Json.bool false => "false"
  | Json.num lx => lx
  | Json.str s => s
  | Json.arr elems => String.intercalate "," (jsArrStrings elems)
  | Json.obj _ => "[object Object]"

def jsArrStrings : List Json → List String
  | [] => []
  | Json.null :: rest => "" :: jsArrStrings rest
  | e :: rest => jsToString e :: jsArrStrings rest

end

/-- JavaScript object property lookup on a parsed JSON object: with
duplicate keys the later binding wins, as in `JSON.parse`. -/
def objLookup (fields : List (String × Json)) (key : String) : Option Json :=
  (fields.reverse.find? (fun p => p.1 == key)).map (fun p => p.2)

/-- Whitespace accepted between JSON tokens. -/
def skipWs (s : List Char) : List Char :=
  s.dropWhile (fun c => c == ' ' || c == '\t' || c == '\n' || c == '\r')

/-- Value of a hexadecimal digit, for `\uXXXX` escapes. -/
def hexVal (c : Char) : Option Nat :=
  if '0' ≤ c ∧ c ≤ '9' then some (c.toNat - 48)
  else if 'a' ≤ c ∧ c ≤ 'f' then some (c.toNat - 87)
  else if 'A' ≤ c ∧ c ≤ 'F' then some (c.toNat - 55)
  else none

/-- Single-character JSON string escapes. -/
def escChar (e : Char) : Option Char :=
  if e = '"' then some '"'
  else if e = '\\' then some '\\'
  else if e = '/' then some '/'
  else if e = 'b' then some (Char.ofNat 8)
  else if e = 'f' then some (Char.ofNat 12)
  else if e = 'n' then some '\n'
  else if e = 'r' then some '\r'
  else if e = 't' then some '\t'
  else none

/-- Body of a JSON string literal, after the opening quote; returns the
decoded characters and the remaining input. -/
def parseStringBody : Nat → List Char → Option (List Char × List Char)
  | 0, _ => none
  | Nat.succ fuel, s =>
    match s with
    | [] => none
    | '"' :: rest => some ([], rest)
    | '\\' :: e :: rest =>
      if e = 'u' then
        match rest with
        | h1 :: h2 :: h3 :: h4 :: rest2 =>
          match hexVal h1, hexVal h2, hexVal h3, hexVal h4 with
          | some a, some b, some c, some d =>
            match parseStringBody fuel rest2 with
            | some (cs, r) => some (Char.ofNat (((a * 16 + b) * 16 + c) * 16 + d) :: cs, r)
            | none => none
          | _, _, _, _ => none
        | _ => none
      else
        match escChar e with
        | some ch =>
          match parseStringBody fuel rest with
          | some (cs, r) => some (ch :: cs, r)
          | none => none
        | none => none
    | c :: rest =>
      match parseStringBody fuel rest with
      | some (cs, r) => some (c :: cs, r)
      | none => none

/-- Exponent part of a JSON number (possibly empty). -/
def parseExpPart (s : List Char) : Option (List Char × List Char) :=
  match s with
  | [] => some ([], [])
  | c :: r =>
    if c = 'e' ∨ c = 'E' then
      let (sg, r2) :=
        match r with
        | '+' :: rr => (['+'], rr)
        | '-' :: rr => (['-'], rr)
        | _ => (([] : List Char), r)
      match r2 with
      | [] => none
      | d :: _ =>
        if d.isDigit then
          some ((c :: sg) ++ r2.takeWhile Char.isDigit, r2.dropWhile Char.isDigit)
        else none
    else some ([], s)

/-- Fractional and exponent parts of a JSON number (possibly empty). -/
def parseFracPart (s : List Char) : Option (List Char × List Char) :=
  match s with
  | '.' :: r =>
    match r with
    | [] => none
    | d :: _ =>
      if d.isDigit then
        match parseExpPart (r.dropWhile Char.isDigit) with
        | some (ex, r3) => some (('.' :: r.takeWhile Char.isDigit) ++ ex, r3)
        | none => none
      else none
  | _ => parseExpPart s

/-- A JSON numeric literal (returned as its lexeme), rejecting leading
zeros as `JSON.parse` does. -/
def parseNumber (s : List Char) : Option (List Char × List Char) :=
  let (sign, s1) :=
    match s with
    | '-' :: r => ((['-'] : List Char), r)
    | _ => (([] : List Char), s)
  match s1 with
  | [] => none
  | d :: r =>
    if d = '0' then
      match parseFracPart r with
      | some (fr, rest) => some (sign ++ ['0'] ++ fr, rest)
      | none => none
    else if d.isDigit then
      match parseFracPart ((d :: r).dropWhile Char.isDigit) with
      | some (fr, rest) => some (sign ++ (d :: r).takeWhile Char.isDigit ++ fr, rest)
      | none => none
    else none

mutual

/-- One JSON value, fuelled recursive-descent model of `JSON.parse`. -/
def parseVal : Nat → List Char → Option (Json × List Char)
  | 0, _ => none
  | Nat.succ fuel, s0 =>
    match skipWs s0 with
    | [] => none
    | c :: rest =>
      if c = 'n' then
        if ['u', 'l', 'l'].isPrefixOf rest then some (Json.null, rest.drop 3) else none
      else if c = 't' then
        if ['r', 'u', 'e'].isPrefixOf rest then some (Json.bool true, rest.drop 3) else none
      else if c = 'f' then
        if ['a', 'l', 's', 'e'].isPrefixOf rest then some (Json.bool false, rest.drop 4) else none
      else if c = '"' then
        match parseStringBody (rest.length + 1) rest with
        | some (cs, rest2) => some (Json.str ⟨cs⟩, rest2)
        | none => none
      else if c = '\x7b' then
        match skipWs rest with
        | '\x7d' :: rest2 => some (Json.obj [], rest2)
        | s2 =>
          match parseObjItems fuel s2 with
          | some (fields, rest2) => some (Json.obj fields, rest2)
          | none => none
      else if c = '[' then
        match skipWs rest with
        | ']' :: rest2 => some (Json.arr [], rest2)
        | s2 =>
          match parseArrItems fuel s2 with
          | some (vs, rest2) => some (Json.arr vs, rest2)
          | none => none
      else if c = '-' ∨ c.isDigit then
        match parseNumber (c :: rest) with
        | some (lx, rest2) => some (Json.num ⟨lx⟩, rest2)
        | none => none
      else none

/-- Members of a JSON object after `{` (first member onwards). -/
def parseObjItems : Nat → List Char → Option (List (String × Json) × List Char)
  | 0, _ => none
  | Nat.succ fuel, s0 =>
    match skipWs s0 with
    | '"' :: rest =>
      match parseStringBody (rest.length + 1) rest with
      | some (key, rest2) =>
        match skipWs rest2 with
        | ':' :: rest3 =>
          match parseVal fuel rest3 with
          | some (v, rest4) =>
            match skipWs rest4 with
            | ',' :: rest5 =>
              match parseObjItems fuel rest5 with
              | some (fields, rest6) => some ((⟨key⟩, v) :: fields, rest6)
              | none => none
            | '\x7d' :: rest5 => some ([(⟨key⟩, v)], rest5)
            | _ => none
          | none => none
        | _ => none
      | none => none
    | _ => none

/-- Elements of a JSON array after `[` (first element onwards). -/
def parseArrItems : Nat → List Char → Option (List Json × List Char)
  | 0, _ => none
  | Nat.succ fuel, s0 =>
    match parseVal fuel s0 with
    | some (v, rest) =>
      match skipWs rest with
      | ',' :: rest2 =>
        match parseArrItems fuel rest2 with
        | some (vs, rest3) => some (v :: vs, rest3)
        | none => none
      | ']' :: rest2 => some ([v], rest2)
      | _ => none
    | none => none

end

/-- `JSON.parse`: one JSON value spanning the whole input (up to
surrounding whitespace), `none` on a syntax error. -/
def parseJson (s : List Char) : Option Json :=
  match parseVal (2 * s.length + 2) s with
  | some (v, rest) => if skipWs rest = [] then some v else none
  | none => none

/-! ## Keyword scans

The demo route classifies every question by an ordered keyword scan on
its lower-cased text; the live route uses a similar (but not identical)
scan as the fallback of the topic-extraction step. -/

/-- Demo route: ordered keyword scan giving `(topic, units)`. -/
def demoScan (question : String) : String × List String :=
  let ql := jsToLower question.data
  if jsIncludes ql "math".data || jsIncludes ql "algebra".data ||
      jsIncludes ql "equation".data then
    ("Mathematics", ["Algebra", "Equations", "Problem Solving"])
  else if jsIncludes ql "physics".data || jsIncludes ql "force".data ||
      jsIncludes ql "energy".data then
    ("Physics", ["Mechanics", "Energy", "Forces"])
  else if jsIncludes ql "chemistry".data || jsIncludes ql "reaction".data ||
      jsIncludes ql "element".data then
    ("Chemistry", ["Elements", "Reactions", "Compounds"])
  else if jsIncludes ql "biology".data || jsIncludes ql "cell".data ||
      jsIncludes ql "organism".data then
    ("Biology", ["Cell Biology", "Organisms", "Life Processes"])
  else
    ("General Knowledge", ["Fundamentals", "Concepts", "Applications"])

/-- Demo route: canned answer selected by the same ordered keyword scan
(the initial "This is a demo response. " value is overwritten in every
branch, including the final `else`). -/
def demoAnswer (question : String) : String :=
  let ql := jsToLower question.data
  if jsIncludes ql "math".data || jsIncludes ql "algebra".data ||
      jsIncludes ql "equation".data then
    "In mathematics, this concept involves understanding the relationship between variables and constants. The key is to identify the pattern and apply the appropriate mathematical principles to solve the problem systematically."
  else if jsIncludes ql "physics".data || jsIncludes ql "force".data ||
      jsIncludes ql "energy".data then
    "In physics, this phenomenon can be explained through the fundamental laws of motion and energy conservation. Understanding the underlying principles helps us predict and analyze the behavior of physical systems."
  else if jsIncludes ql "chemistry".data || jsIncludes ql "reaction".data ||
      jsIncludes ql "element".data then
    "In chemistry, this process involves the interaction between different elements or compounds. The reaction follows specific patterns based on the properties of the substances involved and the conditions under which they interact."
  else if jsIncludes ql "biology".data || jsIncludes ql "cell".data ||
      jsIncludes ql "organism".data then
    "In biology, this concept relates to the fundamental processes of life. Living organisms have evolved complex systems to maintain homeostasis and respond to their environment through various biological mechanisms."
  else
    "This is an interesting question about General Knowledge. The answer involves understanding the core principles and applying logical reasoning to reach a comprehensive solution. Key factors to consider include the context, relevant theories, and practical applications."

/-- Live route: ordered keyword scan used as the topic-extraction
fallback ("Create fallback topic info based on question keywords"). -/
def fallbackScan (question : String) : String × List String :=
  let questionLower := jsToLower question.data
  if jsIncludes questionLower "math".data || jsIncludes questionLower "equation".data ||
      jsIncludes questionLower "formula".data then
    ("Mathematics", ["Algebra", "Geometry", "Calculus", "Statistics"])
  else if jsIncludes questionLower "physics".data || jsIncludes questionLower "force".data ||
      jsIncludes questionLower "energy".data then
    ("Physics", ["Mechanics", "Thermodynamics", "Electromagnetism", "Modern Physics"])
  else if jsIncludes questionLower "chemistry".data || jsIncludes questionLower "chemical".data ||
      jsIncludes questionLower "molecule".data then
    ("Chemistry", ["Atomic Structure", "Chemical Bonds", "Reactions", "Organic Chemistry"])
  else if jsIncludes questionLower "biology".data || jsIncludes questionLower "cell".data ||
      jsIncludes questionLower "organism".data then
    ("Biology", ["Cell Biology", "Genetics", "Ecology", "Evolution"])
  else
    ("General Knowledge", ["Fundamentals", "Key Concepts", "Applications", "Practice"])

/-! ## Requests, files, and responses -/

/-- The uploaded file, as far as the endpoints inspect it: its MIME type
and byte size (`file.arrayBuffer()` of a file of size `n` yields a
buffer with `byteLength = n`). -/
structure ImageFile where
  type : String
  size : Nat

/-- An endpoint response: either an error body `{ error }` with a status
code, or the HTTP 200 success body (its `answer`, `topic` and `units`
fields; the `visualization` URL and `metadata` are derived data not
touched by any claim). -/
inductive ApiResponse where
  | errorResp : Nat → String → ApiResponse
  | success : String → String → List String → ApiResponse
deriving DecidableEq

/-- Demo route handler: validation of the two form fields, then the
keyword-scan Result (the simulated delay has no observable effect).
`question = some ""` is falsy in `!question` just like a missing field. -/
def demoPOST (question : Option String) (image : Option ImageFile) : ApiResponse :=
  match question, image with
  | some q, some _ =>
    if q = "" then ApiResponse.errorResp 400 "Question and image are required"
    else ApiResponse.success (demoAnswer q) (demoScan q).1 (demoScan q).2
  | _, _ => ApiResponse.errorResp 400 "Question and image are required"

/-! ## The external model oracle -/

/-- One part of a Gemini response candidate (`parts[i].text`). -/
structure GeminiPart where
  text : Option String

/-- One response candidate; a missing `content` behaves exactly like
`parts = []` under the route's optional chaining. -/
structure GeminiCandidate where
  parts : List GeminiPart

/-- A Gemini API response (`result.response.candidates`); a missing
`response` behaves like `candidates = []`. -/
structure GeminiResponse where
  candidates : List GeminiCandidate

/-- An error thrown by a model call (or by the route's own extraction
checks): its `message` string and optional numeric `status`. -/
structure GeminiError where
  message : String
  status : Option Int

/-- `candidates[0]?.content?.parts[0]?.text`: the optional chain both
steps use to reach the first text part. -/
def firstPartText (r : GeminiResponse) : Option String :=
  match r.candidates with
  | [] => none
  | cand :: _ =>
    match cand.parts with
    | [] => none
    | part :: _ => part.text

/-! ## Step 1: answer generation -/

/-- Replacement answer when the extracted text is missing, the literal
placeholder, or shorter than 10 characters. -/
def apologyShort : String :=
  "I was unable to generate a detailed answer for your question. Please try rephrasing your question or using a different image."

/-- Replacement answer when the model call fails in an unclassified way
("Generic fallback for answer generation"). -/
def apologyError : String :=
  "I encountered an issue while analyzing your image. Please try again with a different image or rephrase your question."

/-- `geminiError.message?.includes("404") || geminiError.status === 404`. -/
def notFoundErr (e : GeminiError) : Bool :=
  jsIncludes e.message.data "404".data || e.status == some 404

/-- `geminiError.message?.includes("quota") || geminiError.status === 429`. -/
def quotaErr (e : GeminiError) : Bool :=
  jsIncludes e.message.data "quota".data || e.status == some 429

/-- `geminiError.message?.includes("timeout")`. -/
def timeoutErr (e : GeminiError) : Bool :=
  jsIncludes e.message.data "timeout".data

/-- `geminiError.message?.includes("SAFETY") || geminiError.message?.includes("blocked")`. -/
def safetyErr (e : GeminiError) : Bool :=
  jsIncludes e.message.data "SAFETY".data || jsIncludes e.message.data "blocked".data

/-- The ordered classification in the step-1 `catch`: `some (status,
message)` aborts the request, `none` falls through to the generic
replacement answer. -/
def classifyGeminiError (e : GeminiError) : Option (Nat × String) :=
  if notFoundErr e then
    some (503, "The AI model is temporarily unavailable. Please try again later.")
  else if quotaErr e then
    some (429, "API usage limit exceeded. Please try again later.")
  else if timeoutErr e then
    some (408, "Request timed out. The image might be too complex or large. Please try with a smaller image.")
  else if safetyErr e then
    some (400, "Content was blocked due to safety policies. Please try with a different image or question.")
  else none

/-- `content[0]?.text?.trim() || "No answer generated."`: the extracted
answer before the short-answer replacement. -/
def extractedBase (otext : Option String) : String :=
  match otext with
  | some s => if jsTrimS s = "" then "No answer generated." else jsTrimS s
  | none => "No answer generated."

/-- The body of the step-1 `try`: extract the answer from the model
response, throwing (as a `GeminiError`) when candidates or parts are
missing, and applying the placeholder/short-answer replacement. -/
def answerAttempt (outcome : Except GeminiError GeminiResponse) : Except GeminiError String :=
  match outcome with
  | Except.error e => Except.error e
  | Except.ok r =>
    match r.candidates with
    | [] => Except.error ⟨"No response candidates received from Gemini", none⟩
    | cand :: _ =>
      match cand.parts with
      | [] => Except.error ⟨"No content parts in response", none⟩
      | part :: _ =>
        Except.ok
          (if extractedBase part.text = "No answer generated." ∨ (extractedBase part.text).length < 10
            then apologyShort else extractedBase part.text)

/-- Step 1 of the live route: the `try`/`catch` around answer
generation.  An `Except.error (status, message)` aborts the whole
request with that error response; `Except.ok answer` continues to the
topic-extraction step. -/
def answerStep (outcome : Except GeminiError GeminiResponse) : Except (Nat × String) String :=
  match answerAttempt outcome with
  | Except.ok a => Except.ok a
  | Except.error e =>
    match classifyGeminiError e with
    | some cm => Except.error cm
    | none => Except.ok apologyError

/-! ## Step 2: topic extraction -/

/-- `rawText.match(/\x7b[\s\S]*\x7d/)`: the substring from the first
brace to the last closing brace, when such a (length ≥ 2) span exists. -/
def extractBraced (s : List Char) : Option (List Char) :=
  let t := s.dropWhile (fun c => c ≠ '\x7b')
  let u := (t.reverse.dropWhile (fun c => c ≠ '\x7d')).reverse
  if 2 ≤ u.length then some u else none

/-- One global regex-replacement pass deleting every occurrence of
`tag` followed by an optional newline (`/tag\n?/g` with replacement ""). -/
def stripTag (tag : List Char) : Nat → List Char → List Char
  | 0, s => s
  | Nat.succ fuel, s =>
    match s with
    | [] => []
    | c :: rest =>
      if (tag ++ ['\n']).isPrefixOf s then stripTag tag fuel (s.drop (tag.length + 1))
      else if tag.isPrefixOf s then stripTag tag fuel (s.drop tag.length)
      else c :: stripTag tag fuel rest

/-- `.replace(/```json\n?/g, "").replace(/```\n?/g, "")`. -/
def stripFences (s : List Char) : List Char :=
  let s1 := stripTag "```json".data s.length s
  stripTag "```".data s1.length s1

/-- The cleaned string handed to `JSON.parse`: brace-span extraction
(falling back to the raw text), then markdown-fence removal. -/
def cleanedText (rawText : String) : List Char :=
  let jsonString :=
    match extractBraced rawText.data with
    | some u => u
    | none => rawText.data
  stripFences jsonString

/-- The parse-and-validate part of the step-2 `try`: `some (topic,
units)` when `JSON.parse` succeeds on the cleaned text and the result
passes the structure checks (object; `topic` a truthy string; `units` a
non-empty array), with the units string-coerced and truncated to 6;
`none` reaches the `catch` and hence the keyword fallback. -/
def parseTopicInfo (rawText : String) : Option (String × List String) :=
  match parseJson (cleanedText rawText) with
  | some (Json.obj fields) =>
    match objLookup fields "topic" with
    | some (Json.str t) =>
      if t = "" then none
      else
        match objLookup fields "units" with
        | some (Json.arr us) =>
          if us.isEmpty then none
          else some (t, (us.map jsToString).take 6)
        | _ => none
    | _ => none
  | _ => none

/-- Step 2 of the live route: topic extraction with fallback.  Any
failure — model error, missing/empty text, JSON syntax error, or shape
validation error — lands in the `catch` and yields the keyword scan of
the question. -/
def topicStep (question : String) (outcome : Except GeminiError GeminiResponse) :
    String × List String :=
  match outcome with
  | Except.error _ => fallbackScan question
  | Except.ok r =>
    match firstPartText r with
    | none => fallbackScan question
    | some t0 =>
      if jsTrimS t0 = "" then fallbackScan question
      else
        match parseTopicInfo (jsTrimS t0) with
        | some ti => ti
        | none => fallbackScan question

/-! ## The live endpoint -/

/-- `const maxSize = 10 * 1024 * 1024` (10 MiB). -/
def maxFileSize : Nat := 10 * 1024 * 1024

/-- Everything the live handler's behaviour depends on: the request
fields and the outcomes of the environment and of the two model calls. -/
structure RequestEnv where
  apiKeyPresent : Bool
  formDataValid : Bool
  question : Option String
  image : Option ImageFile
  flashModelOk : Bool
  proModelOk : Bool
  answerOutcome : Except GeminiError GeminiResponse
  topicOutcome : Except GeminiError GeminiResponse

/-- The live `POST` handler (`src/app/api/generate/route.ts`): the
validation sequence, image conversion, model initialisation with
fallback, then the two model steps.  A success response carries the
`answer`, `topic` and `units` fields of the 200 body. -/
def livePOST (env : RequestEnv) : ApiResponse :=
  if env.apiKeyPresent = false then
    ApiResponse.errorResp 500
      "Gemini API key is not configured. Please set GEMINI_API_KEY in your environment variables."
  else if env.formDataValid = false then
    ApiResponse.errorResp 400 "Invalid form data format"
  else
    match env.question, env.image with
    | some q, some img =>
      if q = "" then
        ApiResponse.errorResp 400 "Both question and image are required."
      else if (jsTrim q.data).length < 3 then
        ApiResponse.errorResp 400 "Question must be at least 3 characters long."
      else if jsStartsWith img.type.data "image/".data = false then
        ApiResponse.errorResp 400
          "Invalid file type. Please upload an image file (JPEG, PNG, GIF, WebP)."
      else if maxFileSize < img.size then
        ApiResponse.errorResp 413 "Image file too large. Maximum size is 10MB."
      else if img.size = 0 then
        ApiResponse.errorResp 400
          "Failed to process image file. Please try with a different image."
      else if env.flashModelOk = false ∧ env.proModelOk = false then
        ApiResponse.errorResp 503
          "Gemini models are currently unavailable. Please try again later."
      else
        match answerStep env.answerOutcome with
        | Except.error (code, msg) => ApiResponse.errorResp code msg
        | Except.ok answer =>
          ApiResponse.success answer (topicStep q env.topicOutcome).1
            (topicStep q env.topicOutcome).2
    | _, _ => ApiResponse.errorResp 400 "Both question and image are required."

/-! ## Helper lemmas -/

/-- Every branch of the live keyword fallback yields a non-empty topic
and exactly four units. -/
theorem fallbackScan_spec (q : String) :
    (fallbackScan q).1 ≠ "" ∧ (fallbackScan q).2.length = 4 := by
  simp only [fallbackScan]
  split_ifs <;> exact ⟨by decide, rfl⟩

/-- Every branch of the demo keyword scan yields a non-empty topic and
exactly three units. -/
theorem demoScan_spec (q : String) :
    (demoScan q).1 ≠ "" ∧ (demoScan q).2.length = 3 := by
  simp only [demoScan]
  split_ifs <;> exact ⟨by decide, rfl⟩

/-- Every canned demo answer is non-empty. -/
theorem demoAnswer_ne_empty (q : String) : demoAnswer q ≠ "" := by
  simp only [demoAnswer]
  split_ifs <;> decide

/-- A successfully validated topic parse yields a non-empty topic and
between 1 and 6 units. -/
theorem parseTopicInfo_spec {raw : String} {t : String} {u : List String}
    (h : parseTopicInfo raw = some (t, u)) :
    t ≠ "" ∧ 1 ≤ u.length ∧ u.length ≤ 6 := by
  unfold parseTopicInfo at h
  split at h
  case _ =>
    rename_i fields hj
    split at h
    case _ =>
      rename_i t' hlook
      split at h
      · exact absurd h (by simp)
      case _ =>
        rename_i hne
        split at h
        case _ =>
          rename_i us hus
          split at h
          · exact absurd h (by simp)
          case _ =>
            rename_i hemp
            rw [Option.some_inj, Prod.mk.injEq] at h
            obtain ⟨rfl, rfl⟩ := h
            have hlen1 : 1 ≤ us.length := by
              cases us with
              | nil => exact absurd rfl hemp
              | cons a l => simp
            refine ⟨hne, ?_, ?_⟩
            · simp only [List.length_take, List.length_map]
              omega
            · simp only [List.length_take, List.length_map]
              omega
        case _ =>
          exact absurd h (by simp)
    case _ =>
      exact absurd h (by simp)
  case _ =>
    exact absurd h (by simp)

/-- When the first text part trims non-empty and parses/validates, the
topic step returns the parsed pair. -/
theorem topicStep_of_parse {r : GeminiResponse} {t0 : String} {ti : String × List String}
    (q : String) (hft : firstPartText r = some t0)
    (hne : jsTrimS t0 ≠ "") (hp : parseTopicInfo (jsTrimS t0) = some ti) :
    topicStep q (Except.ok r) = ti := by
  simp only [topicStep]
  rw [hft]
  dsimp only
  rw [if_neg hne, hp]

/-- When the parse-and-validate part fails, the topic step falls back to
the keyword scan of the question. -/
theorem topicStep_of_parse_failure {r : GeminiResponse} {t0 : String}
    (q : String) (hft : firstPartText r = some t0)
    (hp : parseTopicInfo (jsTrimS t0) = none) :
    topicStep q (Except.ok r) = fallbackScan q := by
  simp only [topicStep]
  rw [hft]
  dsimp only
  by_cases hne : jsTrimS t0 = ""
  · rw [if_pos hne]
  · rw [if_neg hne, hp]

/-- Whatever the second model call returns, the topic step yields a
non-empty topic and between 1 and 6 units. -/
theorem topicStep_spec {q : String} {o : Except GeminiError GeminiResponse}
    {t : String} {u : List String} (h : topicStep q o = (t, u)) :
    t ≠ "" ∧ 1 ≤ u.length ∧ u.length ≤ 6 := by
  have hfb : fallbackScan q = (t, u) → t ≠ "" ∧ 1 ≤ u.length ∧ u.length ≤ 6 := by
    intro hf
    obtain ⟨h1, h2⟩ := fallbackScan_spec q
    rw [hf] at h1 h2
    exact ⟨h1, by simp at h2 ⊢; omega, by simp at h2 ⊢; omega⟩
  unfold topicStep at h
  split at h
  · exact hfb h
  case _ r =>
    split at h
    · exact hfb h
    case _ t0 =>
      split at h
      · exact hfb h
      · split at h
        case _ ti hp =>
          rw [h] at hp
          exact parseTopicInfo_spec hp
        · exact hfb h

/-- Every answer the step-1 `try`/`catch` lets through is non-empty, is
never the placeholder, and is either one of the two apology strings or
the trimmed model text of length at least 10. -/
theorem answerStep_ok_spec {o : Except GeminiError GeminiResponse} {a : String}
    (h : answerStep o = Except.ok a) :
    a ≠ "" ∧ a ≠ "No answer generated." ∧
      (a = apologyShort ∨ a = apologyError ∨
        (10 ≤ a.length ∧ ∃ r s, o = Except.ok r ∧ firstPartText r = some s ∧ a = jsTrimS s)) := by
  unfold answerStep at h
  split at h
  case _ a' heq =>
    rw [Except.ok.injEq] at h
    subst h
    unfold answerAttempt at heq
    split at heq
    · exact absurd heq (by simp)
    case _ r =>
      split at heq
      · exact absurd heq (by simp)
      case _ cand tl hcand =>
        split at heq
        · exact absurd heq (by simp)
        case _ part tl2 hpart =>
          rw [Except.ok.injEq] at heq
          split at heq
          · subst heq
            exact ⟨by decide, by decide, Or.inl rfl⟩
          case _ hcond =>
            push_neg at hcond
            obtain ⟨hnotlit, hlen⟩ := hcond
            subst heq
            refine ⟨?_, hnotlit, Or.inr (Or.inr ⟨by omega, ?_⟩)⟩
            · intro h0
              rw [h0] at hlen
              exact absurd hlen (by decide)
            · cases htext : part.text with
              | none =>
                rw [htext] at hnotlit
                exact absurd rfl hnotlit
              | some s =>
                refine ⟨r, s, rfl, ?_, ?_⟩
                · unfold firstPartText
                  rw [hcand]
                  dsimp only
                  rw [hpart]
                  dsimp only
                  exact htext
                · by_cases hts : jsTrimS s = ""
                  · exact absurd (by rw [htext]; simp [extractedBase, hts]) hnotlit
                  · simp [extractedBase, hts]
  case _ e heq =>
    split at h
    · exact absurd h (by simp)
    · rw [Except.ok.injEq] at h
      subst h
      exact ⟨by decide, by decide, Or.inr (Or.inl rfl)⟩

/-- The step-1 `catch` only ever aborts with one of the four classified
status codes. -/
theorem answerStep_error_status {o : Except GeminiError GeminiResponse}
    {c : Nat} {m : String} (h : answerStep o = Except.error (c, m)) :
    c = 503 ∨ c = 429 ∨ c = 408 ∨ c = 400 := by
  unfold answerStep at h
  split at h
  · exact absurd h (by simp)
  case _ e heq =>
    split at h
    case _ cm hcl =>
      unfold classifyGeminiError at hcl
      split_ifs at hcl <;>
        · rw [Option.some_inj] at hcl
          rw [← hcl] at h
          rw [Except.error.injEq, Prod.mk.injEq] at h
          obtain ⟨hc, -⟩ := h
          omega
    · exact absurd h (by simp)

/-- Inversion of the live handler on a 200 response: the request passed
validation, the answer came from step 1, and the topic/units pair from
step 2 applied to the submitted question. -/
theorem livePOST_success_inv {env : RequestEnv} {a t : String} {u : List String}
    (h : livePOST env = ApiResponse.success a t u) :
    ∃ q, env.question = some q ∧ answerStep env.answerOutcome = Except.ok a ∧
      topicStep q env.topicOutcome = (t, u) := by
  unfold livePOST at h
  split at h
  · exact absurd h (by simp)
  split at h
  · exact absurd h (by simp)
  split at h
  case _ q img hq himg =>
    split_ifs at h
    case _ =>
      split at h
      · exact absurd h (by simp)
      case _ ans hans =>
        rw [ApiResponse.success.injEq] at h
        obtain ⟨rfl, rfl, rfl⟩ := h
        exact ⟨q, hq, hans, rfl⟩
  case _ =>
    exact absurd h (by simp)

/-! ## Claims -/

/-- C1, counterexample: the claim that the demo endpoint's keyword scan
and the live endpoint's fallback keyword scan classify every question
identically is false.  The question "algebra" is a math keyword only in
the demo scan, so the demo endpoint answers "Mathematics" while the live
fallback answers "General Knowledge". -/
theorem claim_C1_counterexample :
    (demoScan "algebra").1 = "Mathematics" ∧
      (fallbackScan "algebra").1 = "General Knowledge" ∧
      (demoScan "algebra").1 ≠ (fallbackScan "algebra").1 := by
  refine ⟨?_, ?_, ?_⟩ <;> decide

/-- C1, amended: the two ordered keyword scans agree on the topic for
every question whose lower-cased text contains none of the six keywords
present in only one of the scans ("algebra", "reaction" and "element"
are demo-only; "formula", "chemical" and "molecule" are live-only). -/
theorem claim_C1_amended (q : String)
    (h1 : jsIncludes (jsToLower q.data) "algebra".data = false)
    (h2 : jsIncludes (jsToLower q.data) "formula".data = false)
    (h3 : jsIncludes (jsToLower q.data) "reaction".data = false)
    (h4 : jsIncludes (jsToLower q.data) "element".data = false)
    (h5 : jsIncludes (jsToLower q.data) "chemical".data = false)
    (h6 : jsIncludes (jsToLower q.data) "molecule".data = false) :
    (demoScan q).1 = (fallbackScan q).1 := by
  simp only [demoScan, fallbackScan, h1, h2, h3, h4, h5, h6,
    Bool.or_false, Bool.false_or]
  split_ifs <;> rfl

/-- C1, witness for the amended claim: "what is energy" contains none of
the six asymmetric keywords, and both scans classify it as "Physics". -/
theorem claim_C1_witness :
    jsIncludes (jsToLower "what is energy".data) "algebra".data = false ∧
      jsIncludes (jsToLower "what is energy".data) "formula".data = false ∧
      jsIncludes (jsToLower "what is energy".data) "reaction".data = false ∧
      jsIncludes (jsToLower "what is energy".data) "element".data = false ∧
      jsIncludes (jsToLower "what is energy".data) "chemical".data = false ∧
      jsIncludes (jsToLower "what is energy".data) "molecule".data = false ∧
      (demoScan "what is energy").1 = (fallbackScan "what is energy").1 :=
  ⟨by decide, by decide, by decide, by decide, by decide, by decide,
    claim_C1_amended "what is energy" (by decide) (by decide) (by decide)
      (by decide) (by decide) (by decide)⟩

/-- C3: in the answer-generation step, the ordered error classification
maps a not-found failure to an aborting 503 response, a quota failure to
429, a timeout to 408 and a safety block to 400, and any unclassified
failure does not abort: the answer becomes the fixed generic apology and
processing continues to topic extraction. -/
theorem claim_C3 (e : GeminiError) :
    (notFoundErr e = true →
      answerStep (Except.error e) =
        Except.error (503, "The AI model is temporarily unavailable. Please try again later.")) ∧
    (notFoundErr e = false → quotaErr e = true →
      answerStep (Except.error e) =
        Except.error (429, "API usage limit exceeded. Please try again later.")) ∧
    (notFoundErr e = false → quotaErr e = false → timeoutErr e = true →
      answerStep (Except.error e) =
        Except.error
          (408, "Request timed out. The image might be too complex or large. Please try with a smaller image.")) ∧
    (notFoundErr e = false → quotaErr e = false → timeoutErr e = false → safetyErr e = true →
      answerStep (Except.error e) =
        Except.error
          (400, "Content was blocked due to safety policies. Please try with a different image or question.")) ∧
    (notFoundErr e = false → quotaErr e = false → timeoutErr e = false → safetyErr e = false →
      answerStep (Except.error e) = Except.ok apologyError) := by
  refine ⟨?_, ?_, ?_, ?_, ?_⟩ <;>
    · intros
      simp_all [answerStep, answerAttempt, classifyGeminiError]

/-- C3, witness: one concrete error of each classification, exercising
all five branches of the classifier. -/
theorem claim_C3_witness :
    answerStep (Except.error ⟨"Error fetching from backend: 404", none⟩) =
        Except.error (503, "The AI model is temporarily unavailable. Please try again later.") ∧
      answerStep (Except.error ⟨"quota exceeded for this project", none⟩) =
        Except.error (429, "API usage limit exceeded. Please try again later.") ∧
      answerStep (Except.error ⟨"Request timeout after 30 seconds", none⟩) =
        Except.error
          (408, "Request timed out. The image might be too complex or large. Please try with a smaller image.") ∧
      answerStep (Except.error ⟨"response blocked by filters", none⟩) =
        Except.error
          (400, "Content was blocked due to safety policies. Please try with a different image or question.") ∧
      answerStep (Except.error ⟨"mysterious upstream failure", none⟩) = Except.ok apologyError :=
  ⟨(claim_C3 ⟨"Error fetching from backend: 404", none⟩).1 (by decide),
    (claim_C3 ⟨"quota exceeded for this project", none⟩).2.1 (by decide) (by decide),
    (claim_C3 ⟨"Request timeout after 30 seconds", none⟩).2.2.1 (by decide) (by decide) (by decide),
    (claim_C3 ⟨"response blocked by filters", none⟩).2.2.2.1 (by decide) (by decide) (by decide)
      (by decide),
    (claim_C3 ⟨"mysterious upstream failure", none⟩).2.2.2.2 (by decide) (by decide) (by decide)
      (by decide)⟩

/-- The C5 model response: the topic JSON wrapped in markdown fences. -/
def fencedTopicText : String :=
  "```json\n\x7b\"topic\":\"Physics\",\"units\":[\"Mechanics\",\"Energy\"]\x7d\n```"

/-- The C5 Gemini response carrying `fencedTopicText` as its first text
part. -/
def fencedTopicResponse : GeminiResponse := ⟨[⟨[⟨some fencedTopicText⟩]⟩]⟩

/-- C5: a topic-extraction response consisting of the JSON object
wrapped in markdown code fences yields topic "Physics" and units
["Mechanics", "Energy"] for every question — the fences do not affect
extraction. -/
theorem claim_C5 (q : String) :
    topicStep q (Except.ok fencedTopicResponse) = ("Physics", ["Mechanics", "Energy"]) :=
  topicStep_of_parse q rfl (by decide) (by decide)

/-- C6: whenever the cleaned topic-extraction text is not valid JSON, or
parses but fails the shape validation, the resulting topic and units are
the keyword-scan fallback of the question, independent of the malformed
response text. -/
theorem claim_C6 (q : String) (r : GeminiResponse) (t0 : String)
    (hft : firstPartText r = some t0)
    (h : parseJson (cleanedText (jsTrimS t0)) = none ∨ parseTopicInfo (jsTrimS t0) = none) :
    topicStep q (Except.ok r) = fallbackScan q := by
  have hn : parseTopicInfo (jsTrimS t0) = none := by
    rcases h with h | h
    · unfold parseTopicInfo
      rw [h]
    · exact h
  exact topicStep_of_parse_failure q hft hn

/-- C6, witness: a malformed response ("not json at all") on a physics
question falls back to the keyword classification of the question. -/
theorem claim_C6_witness :
    firstPartText ⟨[⟨[⟨some "not json at all"⟩]⟩]⟩ = some "not json at all" ∧
      parseJson (cleanedText (jsTrimS "not json at all")) = none ∧
      topicStep "how does force work" (Except.ok ⟨[⟨[⟨some "not json at all"⟩]⟩]⟩) =
        fallbackScan "how does force work" :=
  ⟨rfl, rfl,
    claim_C6 "how does force work" ⟨[⟨[⟨some "not json at all"⟩]⟩]⟩ "not json at all" rfl
      (Or.inl rfl)⟩

/-- The C2 environment: a validated request whose topic-extraction
response parses successfully but carries only two units. -/
def envC2 : RequestEnv where
  apiKeyPresent := true
  formDataValid := true
  question := some "please analyze this diagram"
  image := some ⟨"image/png", 2048⟩
  flashModelOk := true
  proModelOk := true
  answerOutcome :=
    Except.ok ⟨[⟨[⟨some "The diagram shows a lever balancing two masses."⟩]⟩]⟩
  topicOutcome :=
    Except.ok ⟨[⟨[⟨some "\x7b\"topic\":\"Physics\",\"units\":[\"Mechanics\",\"Energy\"]\x7d"⟩]⟩]⟩

/-- C2, counterexample: the claim that every HTTP 200 body has between 3
and 6 units is false for the live endpoint.  The shape validation only
requires a non-empty units array, so a successfully parsed response with
two units produces a 200 body with two units. -/
theorem claim_C2_counterexample :
    livePOST envC2 =
      ApiResponse.success "The diagram shows a lever balancing two masses." "Physics"
        ["Mechanics", "Energy"] ∧
      ¬ 3 ≤ (["Mechanics", "Energy"] : List String).length :=
  ⟨rfl, by decide⟩

/-- C2, amended: every HTTP 200 body of either endpoint has a non-empty
topic, a non-empty answer, and a non-empty units list of at most 6
elements; the demo endpoint additionally always returns at least 3
units, but the live endpoint only guarantees at least 1. -/
theorem claim_C2_amended :
    (∀ (env : RequestEnv) (a t : String) (u : List String),
      livePOST env = ApiResponse.success a t u →
      t ≠ "" ∧ a ≠ "" ∧ 1 ≤ u.length ∧ u.length ≤ 6) ∧
    (∀ (qo : Option String) (io : Option ImageFile) (a t : String) (u : List String),
      demoPOST qo io = ApiResponse.success a t u →
      t ≠ "" ∧ a ≠ "" ∧ 3 ≤ u.length ∧ u.length ≤ 6) := by
  constructor
  · intro env a t u h
    obtain ⟨q, -, hans, htop⟩ := livePOST_success_inv h
    obtain ⟨ha, -, -⟩ := answerStep_ok_spec hans
    obtain ⟨ht, hl1, hl6⟩ := topicStep_spec htop
    exact ⟨ht, ha, hl1, hl6⟩
  · intro qo io a t u h
    unfold demoPOST at h
    split at h
    case _ q w =>
      split at h
      · exact absurd h (by simp)
      · rw [ApiResponse.success.injEq] at h
        obtain ⟨rfl, rfl, rfl⟩ := h
        obtain ⟨h1, h2⟩ := demoScan_spec q
        exact ⟨h1, demoAnswer_ne_empty q, by omega, by omega⟩
    case _ =>
      exact absurd h (by simp)

/-- C2, witness for the amended claim: the two-unit live response and a
three-unit demo response both satisfy the amended invariant. -/
theorem claim_C2_witness :
    (livePOST envC2 =
      ApiResponse.success "The diagram shows a lever balancing two masses." "Physics"
        ["Mechanics", "Energy"]) ∧
      ("Physics" ≠ "" ∧ "The diagram shows a lever balancing two masses." ≠ "" ∧
        1 ≤ (["Mechanics", "Energy"] : List String).length ∧
        (["Mechanics", "Energy"] : List String).length ≤ 6) ∧
      (demoPOST (some "an algebra equation") (some ⟨"image/png", 5⟩) =
        ApiResponse.success (demoAnswer "an algebra equation") "Mathematics"
          ["Algebra", "Equations", "Problem Solving"]) ∧
      ("Mathematics" ≠ "" ∧ demoAnswer "an algebra equation" ≠ "" ∧
        3 ≤ (["Algebra", "Equations", "Problem Solving"] : List String).length ∧
        (["Algebra", "Equations", "Problem Solving"] : List String).length ≤ 6) :=
  ⟨rfl, claim_C2_amended.1 envC2 _ _ _ rfl, rfl,
    claim_C2_amended.2 (some "an algebra equation") (some ⟨"image/png", 5⟩) _ _ _ rfl⟩

/-- C4: the live endpoint's validation sequence, in source order — each
conjunct assumes exactly the earlier checks passed and nothing about any
later field, so a failing check's response is returned before any later
check is evaluated. -/
theorem claim_C4 (env : RequestEnv) :
    (env.apiKeyPresent = false →
      livePOST env = ApiResponse.errorResp 500
        "Gemini API key is not configured. Please set GEMINI_API_KEY in your environment variables.") ∧
    (env.apiKeyPresent = true → env.formDataValid = false →
      livePOST env = ApiResponse.errorResp 400 "Invalid form data format") ∧
    (env.apiKeyPresent = true → env.formDataValid = true →
      (env.question = none ∨ env.question = some "" ∨ env.image = none) →
      livePOST env = ApiResponse.errorResp 400 "Both question and image are required.") ∧
    (∀ (q : String) (img : ImageFile), env.apiKeyPresent = true → env.formDataValid = true →
      env.question = some q → q ≠ "" → env.image = some img →
      (jsTrim q.data).length < 3 →
      livePOST env = ApiResponse.errorResp 400 "Question must be at least 3 characters long.") ∧
    (∀ (q : String) (img : ImageFile), env.apiKeyPresent = true → env.formDataValid = true →
      env.question = some q → q ≠ "" → env.image = some img →
      ¬ (jsTrim q.data).length < 3 →
      jsStartsWith img.type.data "image/".data = false →
      livePOST env = ApiResponse.errorResp 400
        "Invalid file type. Please upload an image file (JPEG, PNG, GIF, WebP).") ∧
    (∀ (q : String) (img : ImageFile), env.apiKeyPresent = true → env.formDataValid = true →
      env.question = some q → q ≠ "" → env.image = some img →
      ¬ (jsTrim q.data).length < 3 →
      jsStartsWith img.type.data "image/".data = true →
      maxFileSize < img.size →
      livePOST env = ApiResponse.errorResp 413 "Image file too large. Maximum size is 10MB.") := by
  refine ⟨?_, ?_, ?_, ?_, ?_, ?_⟩
  · intro h1
    simp [livePOST, h1]
  · intro h1 h2
    simp [livePOST, h1, h2]
  · intro h1 h2 h3
    rcases h3 with h3 | h3 | h3
    · cases himg : env.image <;> simp [livePOST, h1, h2, h3, himg]
    · cases himg : env.image <;> simp [livePOST, h1, h2, h3, himg]
    · cases hq : env.question <;> simp [livePOST, h1, h2, h3, hq]
  · intro q img h1 h2 hq hq0 himg hlen
    simp [livePOST, h1, h2, hq, hq0, himg, hlen]
  · intro q img h1 h2 hq hq0 himg hlen htype
    simp [livePOST, h1, h2, hq, hq0, himg, hlen, htype]
  · intro q img h1 h2 hq hq0 himg hlen htype hsize
    simp [livePOST, h1, h2, hq, hq0, himg, hlen, htype, hsize]

/-- An environment with no API credential configured, for the C4
witness. -/
def envNoKey : RequestEnv where
  apiKeyPresent := false
  formDataValid := true
  question := none
  image := none
  flashModelOk := true
  proModelOk := true
  answerOutcome := Except.error ⟨"unused", none⟩
  topicOutcome := Except.error ⟨"unused", none⟩

/-- An otherwise valid environment whose question is too short, for the
C4 witness. -/
def envShortQuestion : RequestEnv where
  apiKeyPresent := true
  formDataValid := true
  question := some "hi"
  image := some ⟨"image/png", 10⟩
  flashModelOk := true
  proModelOk := true
  answerOutcome := Except.error ⟨"unused", none⟩
  topicOutcome := Except.error ⟨"unused", none⟩

/-- C4, witness: the 500 branch on a missing credential and the 400
branch on a two-character question. -/
theorem claim_C4_witness :
    envNoKey.apiKeyPresent = false ∧
      livePOST envNoKey = ApiResponse.errorResp 500
        "Gemini API key is not configured. Please set GEMINI_API_KEY in your environment variables." ∧
      (jsTrim "hi".data).length < 3 ∧
      livePOST envShortQuestion =
        ApiResponse.errorResp 400 "Question must be at least 3 characters long." :=
  ⟨rfl, (claim_C4 envNoKey).1 rfl, by decide,
    (claim_C4 envShortQuestion).2.2.2.1 "hi" ⟨"image/png", 10⟩ rfl rfl rfl (by decide) rfl
      (by decide)⟩

/-- C7: on an otherwise valid request, an image of exactly
10 * 1024 * 1024 bytes passes the size validation (no 413 response can
result), while one byte more is rejected with status 413. -/
theorem claim_C7 (env : RequestEnv) (q : String) (img : ImageFile)
    (hk : env.apiKeyPresent = true) (hf : env.formDataValid = true)
    (hq : env.question = some q) (hq0 : q ≠ "")
    (himg : env.image = some img)
    (hlen : ¬ (jsTrim q.data).length < 3)
    (htype : jsStartsWith img.type.data "image/".data = true) :
    (img.size = 10 * 1024 * 1024 → ∀ m, livePOST env ≠ ApiResponse.errorResp 413 m) ∧
    (img.size = 10 * 1024 * 1024 + 1 →
      livePOST env = ApiResponse.errorResp 413 "Image file too large. Maximum size is 10MB.") := by
  constructor
  · intro hsz m hcon
    have hnotbig : ¬ maxFileSize < img.size := by rw [hsz]; decide
    have hnz : ¬ img.size = 0 := by rw [hsz]; decide
    simp only [livePOST, hk, hf, hq, himg] at hcon
    simp [hq0, hlen, htype, hnotbig, hnz] at hcon
    split at hcon
    · simp at hcon
    · split at hcon
      case _ =>
        rename_i code msg hans
        rw [ApiResponse.errorResp.injEq] at hcon
        obtain ⟨hc, -⟩ := hcon
        rcases answerStep_error_status hans with h4 | h4 | h4 | h4 <;> omega
      case _ =>
        simp at hcon
  · intro hsz
    have hbig : maxFileSize < img.size := by rw [hsz]; decide
    simp [livePOST, hk, hf, hq, hq0, himg, hlen, htype, hbig]

/-- An otherwise valid environment with an image of exactly 10 MiB, for
the C7 witness. -/
def envTenMiB : RequestEnv where
  apiKeyPresent := true
  formDataValid := true
  question := some "what is shown here"
  image := some ⟨"image/png", 10 * 1024 * 1024⟩
  flashModelOk := true
  proModelOk := true
  answerOutcome := Except.ok ⟨[⟨[⟨some "A picture of a labelled plant cell, drawn in ink."⟩]⟩]⟩
  topicOutcome := Except.error ⟨"Topic extraction timeout", none⟩

/-- The same environment with one extra byte, for the C7 witness. -/
def envTenMiBPlus : RequestEnv where
  apiKeyPresent := true
  formDataValid := true
  question := some "what is shown here"
  image := some ⟨"image/png", 10 * 1024 * 1024 + 1⟩
  flashModelOk := true
  proModelOk := true
  answerOutcome := Except.ok ⟨[⟨[⟨some "A picture of a labelled plant cell, drawn in ink."⟩]⟩]⟩
  topicOutcome := Except.error ⟨"Topic extraction timeout", none⟩

/-- C7, witness: the boundary cases at exactly 10 MiB and 10 MiB + 1. -/
theorem claim_C7_witness :
    livePOST envTenMiB ≠ ApiResponse.errorResp 413 "Image file too large. Maximum size is 10MB." ∧
      livePOST envTenMiBPlus =
        ApiResponse.errorResp 413 "Image file too large. Maximum size is 10MB." :=
  ⟨(claim_C7 envTenMiB "what is shown here" ⟨"image/png", 10 * 1024 * 1024⟩ rfl rfl rfl
        (by decide) rfl (by decide) (by decide)).1 rfl
      "Image file too large. Maximum size is 10MB.",
    (claim_C7 envTenMiBPlus "what is shown here" ⟨"image/png", 10 * 1024 * 1024 + 1⟩ rfl rfl rfl
        (by decide) rfl (by decide) (by decide)).2 rfl⟩

/-- C8: when the topic-extraction response parses to an object with a
valid topic and more than 6 units, the 200 response carries exactly the
first 6 units (each string-coerced); moreover no response of the topic
step ever carries more than 6 units. -/
theorem claim_C8 :
    (∀ (q : String) (r : GeminiResponse) (t0 : String) (fields : List (String × Json))
        (t : String) (us : List Json),
      firstPartText r = some t0 →
      parseJson (cleanedText (jsTrimS t0)) = some (Json.obj fields) →
      objLookup fields "topic" = some (Json.str t) → t ≠ "" →
      objLookup fields "units" = some (Json.arr us) → 6 < us.length →
      topicStep q (Except.ok r) = (t, (us.map jsToString).take 6) ∧
        ((us.map jsToString).take 6).length = 6) ∧
    (∀ (q : String) (o : Except GeminiError GeminiResponse), (topicStep q o).2.length ≤ 6) := by
  constructor
  · intro q r t0 fields t us hft hj htop htne hun hlen
    have hne : jsTrimS t0 ≠ "" := by
      intro h0
      rw [h0] at hj
      have hempty : parseJson (cleanedText "") = none := rfl
      rw [hempty] at hj
      exact Option.noConfusion hj
    have hemp : us.isEmpty = false := by
      cases us with
      | nil => simp at hlen
      | cons a l => rfl
    have hp : parseTopicInfo (jsTrimS t0) = some (t, (us.map jsToString).take 6) := by
      simp [parseTopicInfo, hj, htop, htne, hun, hemp]
    refine ⟨topicStep_of_parse q hft hne hp, ?_⟩
    simp only [List.length_take, List.length_map]
    omega
  · intro q o
    obtain ⟨-, -, h⟩ :=
      topicStep_spec (show topicStep q o = ((topicStep q o).1, (topicStep q o).2) from rfl)
    exact h

/-- The C8 seven-unit parsed units array. -/
def sevenUnitsJson : List Json :=
  [Json.str "U1", Json.str "U2", Json.str "U3", Json.str "U4", Json.str "U5", Json.str "U6",
    Json.str "U7"]

/-- The C8 model response text: a topic object with seven units. -/
def sevenUnitText : String :=
  "\x7b\"topic\":\"Mathematics\",\"units\":[\"U1\",\"U2\",\"U3\",\"U4\",\"U5\",\"U6\",\"U7\"]\x7d"

/-- The C8 Gemini response carrying `sevenUnitText`. -/
def sevenUnitResponse : GeminiResponse := ⟨[⟨[⟨some sevenUnitText⟩]⟩]⟩

/-- C8, witness: a seven-unit parsed response is truncated to its first
six units. -/
theorem claim_C8_witness :
    6 < sevenUnitsJson.length ∧
      (topicStep "hello there" (Except.ok sevenUnitResponse) =
          ("Mathematics", (sevenUnitsJson.map jsToString).take 6) ∧
        ((sevenUnitsJson.map jsToString).take 6).length = 6) :=
  ⟨by decide,
    claim_C8.1 "hello there" sevenUnitResponse sevenUnitText
      [("topic", Json.str "Mathematics"), ("units", Json.arr sevenUnitsJson)] "Mathematics"
      sevenUnitsJson rfl rfl rfl (by decide) rfl (by decide)⟩

/-- C9: the answer field of any live 200 response is never empty and
never the literal placeholder "No answer generated.": it is one of the
two fixed apology strings or the trimmed model text of length at
least 10. -/
theorem claim_C9 (env : RequestEnv) (a t : String) (u : List String)
    (h : livePOST env = ApiResponse.success a t u) :
    a ≠ "" ∧ a ≠ "No answer generated." ∧
      (a = apologyShort ∨ a = apologyError ∨
        (10 ≤ a.length ∧ ∃ r s, env.answerOutcome = Except.ok r ∧
          firstPartText r = some s ∧ a = jsTrimS s)) := by
  obtain ⟨q, -, hans, -⟩ := livePOST_success_inv h
  exact answerStep_ok_spec hans

/-- A validated request whose answer call succeeds with a long text and
whose topic call times out, for the C9 witness. -/
def envC9 : RequestEnv where
  apiKeyPresent := true
  formDataValid := true
  question := some "what is a cell made of"
  image := some ⟨"image/jpeg", 100⟩
  flashModelOk := true
  proModelOk := false
  answerOutcome :=
    Except.ok ⟨[⟨[⟨some "A cell is made of a membrane, cytoplasm and organelles."⟩]⟩]⟩
  topicOutcome := Except.error ⟨"Topic extraction timeout", none⟩

/-- C9, witness: a concrete 200 response whose answer is the model's
trimmed long text (the topic comes from the keyword fallback because the
topic call timed out). -/
theorem claim_C9_witness :
    livePOST envC9 =
        ApiResponse.success "A cell is made of a membrane, cytoplasm and organelles." "Biology"
          ["Cell Biology", "Genetics", "Ecology", "Evolution"] ∧
      ("A cell is made of a membrane, cytoplasm and organelles." ≠ "" ∧
        "A cell is made of a membrane, cytoplasm and organelles." ≠ "No answer generated." ∧
        ("A cell is made of a membrane, cytoplasm and organelles." = apologyShort ∨
          "A cell is made of a membrane, cytoplasm and organelles." = apologyError ∨
          (10 ≤ ("A cell is made of a membrane, cytoplasm and organelles." : String).length ∧
            ∃ r s, envC9.answerOutcome = Except.ok r ∧ firstPartText r = some s ∧
              "A cell is made of a membrane, cytoplasm and organelles." = jsTrimS s))) :=
  ⟨rfl, claim_C9 envC9 _ _ _ rfl⟩

/-- C10: a zero-byte file with an image MIME type passes every
documented validation (including the size bound), yet the request fails
with the 400 image-processing error; the equation holds for every model
oracle, so the failure precedes any model call. -/
theorem claim_C10 (env : RequestEnv) (q : String) (img : ImageFile)
    (hk : env.apiKeyPresent = true) (hf : env.formDataValid = true)
    (hq : env.question = some q) (hq0 : q ≠ "")
    (himg : env.image = some img)
    (hlen : ¬ (jsTrim q.data).length < 3)
    (htype : jsStartsWith img.type.data "image/".data = true)
    (hsz : img.size = 0) :
    img.size ≤ maxFileSize ∧
      livePOST env = ApiResponse.errorResp 400
        "Failed to process image file. Please try with a different image." := by
  constructor
  · rw [hsz]
    exact Nat.zero_le _
  · have hnotbig : ¬ maxFileSize < img.size := by rw [hsz]; decide
    simp [livePOST, hk, hf, hq, hq0, himg, hlen, htype, hnotbig, hsz]

/-- A validated request carrying a zero-byte PNG, for the C10 witness. -/
def envZeroByte : RequestEnv where
  apiKeyPresent := true
  formDataValid := true
  question := some "what is this diagram"
  image := some ⟨"image/png", 0⟩
  flashModelOk := true
  proModelOk := true
  answerOutcome := Except.ok ⟨[⟨[⟨some "This answer is never reached by the handler."⟩]⟩]⟩
  topicOutcome := Except.ok ⟨[⟨[⟨some "neither is this text"⟩]⟩]⟩

/-- C10, witness: the zero-byte PNG is within the size bound yet the
request fails with the image-processing 400. -/
theorem claim_C10_witness :
    (⟨"image/png", 0⟩ : ImageFile).size ≤ maxFileSize ∧
      livePOST envZeroByte = ApiResponse.errorResp 400
        "Failed to process image file. Please try with a different image." :=
  claim_C10 envZeroByte "what is this diagram" ⟨"image/png", 0⟩ rfl rfl rfl (by decide) rfl
    (by decide) (by decide) rfl

end QuestionAnsApp
